import Mathlib

/-!
Shallow embedding of the URL detection/transformation pipeline of
`klipplink.py` (clipboard URL watcher): percent-decoding, URL parsing,
domain-condition validation, URL rewriting, retry-with-backoff, the
clipboard-monitor change detection, and the settings-save record.

Strings are modelled as Lean `String`/`List Char`; Python dictionary
lookups with defaults (`config.get(key, default)`) are modelled as
`Option` fields read through `Option.getD`; Python exceptions are
modelled with `Except`.  A reference to a name that is not in scope in
the Python source (a `NameError` at runtime) is modelled as an
`Except.error` carrying the offending name.
-/

deriving instance DecidableEq for Except

/-- Value of a hexadecimal digit character (0 for non-hex input, which the
callers guard against). -/
def hexVal (c : Char) : Nat :=
  if c.isDigit then c.toNat - '0'.toNat
  else if 'a' ≤ c ∧ c ≤ 'f' then c.toNat - 'a'.toNat + 10
  else if 'A' ≤ c ∧ c ≤ 'F' then c.toNat - 'A'.toNat + 10
  else 0

/-- Whether a character is a hexadecimal digit (either case), as accepted by
Python's percent-escape scanner. -/
def isHexDig (c : Char) : Bool :=
  c.isDigit || ('a' ≤ c && c ≤ 'f') || ('A' ≤ c && c ≤ 'F')

/-- Single left-to-right pass of `urllib.parse.unquote`: a `'%'` followed by
two hex digits becomes the character with that code point; any other `'%'`
is kept literally.  This models the external `urllib.parse.unquote` call of
`is_valid_and_ready_url` (klipplink.py line 198) restricted to single-byte
code points (multi-byte UTF-8 escape sequences are outside the model; the
claims about decoding are decided within the ASCII fragment, where this
model and `unquote` agree). -/
def unquoteGo : List Char → List Char
  | [] => []
  | '%' :: a :: b :: rest =>
    if isHexDig a && isHexDig b then
      Char.ofNat (hexVal a * 16 + hexVal b) :: unquoteGo rest
    else
      '%' :: unquoteGo (a :: b :: rest)
  | c :: rest => c :: unquoteGo rest

/-- Percent-decode a string (model of `urllib.parse.unquote`). -/
def pyUnquote (s : String) : String :=
  ⟨unquoteGo s.data⟩

/-- Whether the string contains a decodable percent escape, i.e. a `'%'`
followed by two hex digits, anywhere. -/
def hasEscape : List Char → Bool
  | [] => false
  | '%' :: a :: b :: rest =>
    (isHexDig a && isHexDig b) || hasEscape (a :: b :: rest)
  | _ :: rest => hasEscape rest

/-- Fuel-indexed core of Python `str.replace` for a non-empty pattern:
scan left to right, replace each leftmost non-overlapping occurrence of
`old` by `nw`, and continue after the replacement.  The fuel only bounds
the recursion; `fuel = s.length` always suffices because every step
consumes at least one character. -/
def replaceGo (old nw : List Char) : Nat → List Char → List Char
  | 0, s => s
  | _ + 1, [] => []
  | fuel + 1, c :: rest =>
    if old.isPrefixOf (c :: rest) && !old.isEmpty then
      nw ++ replaceGo old nw fuel (List.drop (old.length - 1) rest)
    else
      c :: replaceGo old nw fuel rest

/-- Model of Python `str.replace(old, nw)`, including the empty-pattern
behaviour (`"abc".replace("", "X") == "XaXbXcX"`). -/
def pyReplace (s old nw : String) : String :=
  if old.data.isEmpty then
    ⟨nw.data ++ (s.data.map (fun c => c :: nw.data)).flatten⟩
  else
    ⟨replaceGo old.data nw.data s.data.length s.data⟩

/-- Model of Python `str.endswith`. -/
def pyEndsWith (s sfx : String) : Bool :=
  sfx.data.isSuffixOf s.data

/-- Characters other than the first that may appear in a URL scheme
(letters, digits, `+`, `-`, `.`), as in `urllib.parse`'s `scheme_chars`. -/
def isSchemeChar (c : Char) : Bool :=
  c.isAlphanum || c = '+' || c = '-' || c = '.'

/-- Split off everything before the first `':'`: returns
`some (before, after)` when a colon occurs, `none` otherwise. -/
def takeScheme : List Char → Option (List Char × List Char)
  | [] => none
  | ':' :: rest => some ([], rest)
  | c :: rest =>
    match takeScheme rest with
    | some (pre, post) => some (c :: pre, post)
    | none => none

/-- Scheme-splitting step of `urllib.parse.urlparse`: when the text before
the first colon is non-empty, starts with a letter and consists of scheme
characters, it is the scheme (lower-cased) and parsing continues after the
colon; otherwise the scheme is empty and the whole input remains. -/
def splitScheme (s : List Char) : List Char × List Char :=
  match takeScheme s with
  | some (pre, post) =>
    if pre ≠ [] ∧ (pre.headD ' ').isAlpha ∧ pre.all isSchemeChar then
      (pre.map Char.toLower, post)
    else ([], s)
  | none => ([], s)

/-- Model of the external `urllib.parse.urlparse` call of
`is_valid_and_ready_url` (klipplink.py line 199), restricted to the two
components the source reads: `(scheme, netloc)`.  The netloc is present
exactly when the remainder after the scheme starts with `"//"`, and ends
at the first `'/'`, `'?'` or `'#'`.  Directly after splitting the netloc,
`urlparse` raises `ValueError("Invalid IPv6 URL")` when the netloc
contains `'['` without `']'` or `']'` without `'['` (cpython's check
after `_splitnetloc`); that is the only exception this stage can raise in
the Python generation matching the source's pinned requirements, and it
is modelled by the error case. -/
def pyUrlparse (url : String) : Except String (String × String) :=
  let p := splitScheme url.data
  match p.2 with
  | '/' :: '/' :: r =>
    let netloc := r.takeWhile (fun c => !(c = '/' || c = '?' || c = '#'))
    if (netloc.contains '[' && !netloc.contains ']') ||
       (netloc.contains ']' && !netloc.contains '[') then
      Except.error "ValueError: Invalid IPv6 URL"
    else
      Except.ok (⟨p.1⟩, ⟨netloc⟩)
  | _ => Except.ok (⟨p.1⟩, "")

/-- Split a character list on `'.'` (always returns at least one label). -/
def splitDot : List Char → List (List Char)
  | [] => [[]]
  | '.' :: rest => [] :: splitDot rest
  | c :: rest =>
    match splitDot rest with
    | [] => [[c]]
    | l :: ls => (c :: l) :: ls

/-- Model of the external `tldextract.extract(netloc).domain` call
(klipplink.py line 201): the registrable domain label of a host.  The
real library consults the public suffix list; this model covers hosts
whose public suffix is a single label (e.g. `"example"` from
`"sub.example.com"`), taking the second-to-last dot-separated label.  No
claim's outcome depends on this value: `check_domain_conditions` raises
before reading its `domain` argument. -/
def tldextract_domain (host : String) : String :=
  let labels := splitDot host.data
  if labels.length ≥ 2 then ⟨labels.getD (labels.length - 2) []⟩ else host

/-- Configuration dictionary as read by the validator and transformer
(klipplink.py lines 205-238).  Every field the code reads through
`config.get(key, default)` is an `Option`, `none` meaning the key is
absent; `replace_domain` is modelled as its two inner `Option` entries
(the code reads `config["replace_domain"].get("old"/"new", "")`).
Field order: condition_type, condition_value, enable_domain_replacement,
replace_domain_old, replace_domain_new, suffix, allowed_protocols. -/
structure PyConfig where
  condition_type : Option String
  condition_value : Option String
  enable_domain_replacement : Option Bool
  replace_domain_old : Option String
  replace_domain_new : Option String
  suffix : Option String
  allowed_protocols : Option (List String)
deriving DecidableEq

/-- The `default_config` written by `load_configuration` (klipplink.py
lines 125-134), restricted to the fields of `PyConfig`. -/
def defaultPyConfig : PyConfig :=
  ⟨some "contains", some "example", some true,
   some "old.com", some "new.com", some "/suffix", some ["http", "https"]⟩

/-- Condition-test dispatch of `check_domain_conditions` (klipplink.py
lines 209-215): the dictionary of lambdas keyed by `condition_type`, with
default `lambda x: False`.  `config.get("condition_type")` yields `None`
when the key is absent, which is not a dictionary key, hence the default.
Python's `in`/`startswith`/`endswith` are the substring/prefix/suffix
tests. -/
def conditionTest (condition_type : Option String) (condition_value domain : String) : Bool :=
  match condition_type with
  | some "contains" => decide (condition_value.data <:+: domain.data)
  | some "startswith" => condition_value.data.isPrefixOf domain.data
  | some "endswith" => condition_value.data.isSuffixOf domain.data
  | _ => false

/-- Allowed-protocol list computed at klipplink.py line 206:
`config.get("allowed_protocols", ["http", "https"])`. -/
def allowed_protocols_of (config : PyConfig) : List String :=
  config.allowed_protocols.getD ["http", "https"]

/-- Model of `MainWindow.check_domain_conditions` (klipplink.py lines
205-215).  Line 206 computes the allowed-protocol list; line 207 then
evaluates `result.scheme`, but `result` is a local variable of
`is_valid_and_ready_url` and is not in scope here (nor a global), so the
method raises `NameError: name 'result' is not defined` before any
protocol or condition test runs.  The error carries the undefined name. -/
def check_domain_conditions (config : PyConfig) (domain : String) : Except String Bool :=
  let _allowed_protocols := allowed_protocols_of config
  let _domain := domain
  Except.error "NameError: result"

/-- Model of `MainWindow.is_valid_and_ready_url` (klipplink.py lines
197-203): percent-decode, parse (a `ValueError` raised by the parse at
line 199 propagates uncaught), and when both scheme and netloc are
non-empty extract the domain label and delegate to
`check_domain_conditions`; otherwise return `False`. -/
def is_valid_and_ready_url (config : PyConfig) (url : String) : Except String Bool :=
  let decoded := pyUnquote url
  match pyUrlparse decoded with
  | Except.error e => Except.error e
  | Except.ok parsed =>
    if parsed.1 ≠ "" ∧ parsed.2 ≠ "" then
      let domain := tldextract_domain parsed.2
      check_domain_conditions config domain
    else
      Except.ok false

/-- Domain-replacement step of `MainWindow.modify_url` (klipplink.py lines
228-231): when `enable_domain_replacement` is truthy (default `False`),
replace every occurrence of `replace_domain["old"]` by
`replace_domain["new"]` in the whole URL string. -/
def replaceStep (config : PyConfig) (url : String) : String :=
  if config.enable_domain_replacement.getD false then
    pyReplace url (config.replace_domain_old.getD "") (config.replace_domain_new.getD "")
  else url

/-- Model of `MainWindow.modify_url` (klipplink.py lines 227-238): the
domain-replacement step, then append `suffix` when it is non-empty and the
(possibly replaced) URL does not already end with it. -/
def modify_url (config : PyConfig) (url : String) : String :=
  let url1 := replaceStep config url
  let sfx := config.suffix.getD ""
  if sfx ≠ "" ∧ pyEndsWith url1 sfx = false then url1 ++ sfx else url1

/-- Outcome of a wrapped call that escapes `retry_with_backoff`'s wrapper:
either an exception of the wrapped operation re-raised on the final
attempt, or a `NameError` raised by the wrapper itself while computing the
jittered delay. -/
inductive RetryErr (ε : Type) where
  | opErr : ε → RetryErr ε
  | nameErr : String → RetryErr ε
deriving DecidableEq

/-- Loop body of the `retry_with_backoff` wrapper (klipplink.py lines
38-54).  `retries` is the 0-based attempt index; the fuel argument is
`max_retries - retries`, so fuel 0 is the loop condition
`retries < max_retries` failing (the wrapper then falls off the loop and
returns Python's implicit `None`, modelled as `Except.ok none`).  `op n`
is the wrapped call on attempt `n`.  On an exception: when
`retries == max_retries - 1` (fuel 1) the error is re-raised; otherwise,
when `jitter` is set and `randomDefined` is false, the delay computation
`random.uniform(0, 1)` at line 50 raises `NameError: name 'random' is not
defined` (the source never imports `random`); otherwise the loop sleeps
and continues.  The delay arithmetic of lines 50-52 only affects sleep
durations, never control flow, and is therefore not carried.  The second
component lists the attempt indices at which `op` was invoked. -/
def retryGo {α ε : Type} (op : Nat → Except ε α) (jitter randomDefined : Bool)
    (retries : Nat) : Nat → Except (RetryErr ε) (Option α) × List Nat
  | 0 => (Except.ok none, [])
  | remaining + 1 =>
    match op retries with
    | Except.ok a => (Except.ok (some a), [retries])
    | Except.error e =>
      if remaining = 0 then (Except.error (RetryErr.opErr e), [retries])
      else if jitter && !randomDefined then (Except.error (RetryErr.nameErr "random"), [retries])
      else
        let r := retryGo op jitter randomDefined (retries + 1) remaining
        (r.1, retries :: r.2)

/-- Model of calling a function wrapped by
`retry_with_backoff(max_retries, ...)` (klipplink.py lines 35-56).
`jitter` defaults to `True` at every call site in the source;
`randomDefined = false` models the source as written (no `import random`),
`randomDefined = true` models the wrapper with the import present. -/
def retry_with_backoff {α ε : Type} (op : Nat → Except ε α) (max_retries : Nat)
    (jitter randomDefined : Bool) : Except (RetryErr ε) (Option α) × List Nat :=
  retryGo op jitter randomDefined 0 max_retries

/-- One poll iteration of `ClipboardMonitor._monitor_clipboard`
(klipplink.py lines 73-82): a failed clipboard read is logged and the
state kept; a successful read of `c` emits `c` and updates
`last_clipboard_content` exactly when `c` differs from it.  The state
starts as `none`, modelling the `None` set in `__init__` (line 64), and
Python's `c != None` is true for every string `c`. -/
def monitorStep (last : Option String) (read : Except String String) : Option String × List String :=
  match read with
  | Except.error _ => (last, [])
  | Except.ok c => if some c ≠ last then (some c, [c]) else (last, [])

/-- The monitor loop run over a finite list of clipboard read results:
final state and the concatenated emitted events. -/
def monitorRun (last : Option String) : List (Except String String) → Option String × List String
  | [] => (last, [])
  | r :: rs =>
    let s1 := monitorStep last r
    let s2 := monitorRun s1.1 rs
    (s2.1, s1.2 ++ s2.2)

/-- JSON values as written to `config.json`; a float is carried as
numerator and denominator (`jnum 3 10` is `0.3`). -/
inductive JVal where
  | jstr : String → JVal
  | jnum : Int → Nat → JVal
  | jbool : Bool → JVal
  | jarr : List JVal → JVal
  | jobj : List (String × JVal) → JVal

/-- Widget state of `SettingsWindow` read by `save_configuration`:
hotkey text, slider value, condition combo text, condition value text,
domain-replacement toggle, old/new domain texts, suffix text. -/
structure SettingsState where
  hotkey_text : String
  delay_value : Int
  condition_text : String
  condition_value_text : String
  domain_replacement_checked : Bool
  old_domain_text : String
  new_domain_text : String
  suffix_text : String

/-- The `new_config` object written by `SettingsWindow.save_configuration`
(klipplink.py lines 315-326), field for field in source order;
`double_press_delay` is `slider.value() / 10.0`. -/
def save_configuration (s : SettingsState) : List (String × JVal) :=
  [("hotkey", JVal.jstr s.hotkey_text),
   ("double_press_delay", JVal.jnum s.delay_value 10),
   ("condition_type", JVal.jstr s.condition_text),
   ("condition_value", JVal.jstr s.condition_value_text),
   ("enable_domain_replacement", JVal.jbool s.domain_replacement_checked),
   ("replace_domain", JVal.jobj [("old", JVal.jstr s.old_domain_text),
                                 ("new", JVal.jstr s.new_domain_text)]),
   ("suffix", JVal.jstr s.suffix_text)]

/-- The `default_config` object written by `MainWindow.load_configuration`
when `config.json` is absent (klipplink.py lines 125-134). -/
def default_config : List (String × JVal) :=
  [("hotkey", JVal.jstr "ctrl"),
   ("double_press_delay", JVal.jnum 3 10),
   ("condition_type", JVal.jstr "contains"),
   ("condition_value", JVal.jstr "example"),
   ("enable_domain_replacement", JVal.jbool true),
   ("replace_domain", JVal.jobj [("old", JVal.jstr "old.com"),
                                 ("new", JVal.jstr "new.com")]),
   ("suffix", JVal.jstr "/suffix"),
   ("allowed_protocols", JVal.jarr [JVal.jstr "http", JVal.jstr "https"])]

/-- Configuration used in the transform scenario: domain replacement
`old.com → new.com` enabled and suffix `"/suffix"`; condition and
protocol keys absent. -/
def scenarioConfig : PyConfig :=
  ⟨none, none, some true, some "old.com", some "new.com", some "/suffix", none⟩

/-- Configuration exhibiting non-idempotence of `modify_url`: replacing
`"s"` by `"t"` with suffix `"s"`, so the second pass rewrites the suffix
appended by the first and appends again. -/
def clashConfig : PyConfig :=
  ⟨none, none, some true, some "s", some "t", some "s", none⟩

/-- Configuration whose `allowed_protocols` key is present but holds the
empty list. -/
def emptyProtocolsConfig : PyConfig :=
  ⟨some "contains", some "example", none, none, none, none, some []⟩

/-- Configuration with every optional key absent. -/
def bareConfig : PyConfig :=
  ⟨none, none, none, none, none, none, none⟩

example : pyReplace "aab" "ab" "b" = "ab" := by decide
example : pyReplace "https://old.com/page" "old.com" "new.com" = "https://new.com/page" := by decide
example : pyReplace "abc" "" "X" = "XaXbXcX" := by decide
example : pyUnquote "%2525" = "%25" := by decide
example : pyUnquote "a%20b" = "a b" := by decide

/-- A fuel-indexed replacement pass leaves a string without any occurrence
of the pattern unchanged, for every fuel value. -/
theorem replaceGo_eq_self (old nw : List Char) (fuel : Nat) (s : List Char)
    (h : ¬ old <:+: s) : replaceGo old nw fuel s = s := by
  induction fuel generalizing s with
  | zero => rfl
  | succ fuel ih =>
    cases s with
    | nil => rfl
    | cons c rest =>
      have h1 : (old.isPrefixOf (c :: rest) && !old.isEmpty) = false := by
        cases hp : old.isPrefixOf (c :: rest)
        · rfl
        · exact absurd (List.IsPrefix.isInfix (( List.isPrefixOf_iff_prefix).mp hp)) h
      simp only [replaceGo, h1, Bool.false_eq_true, if_false]
      exact congrArg (c :: ·) (ih rest (fun hi => h (List.infix_cons hi)))

/-- Python `str.replace` leaves a string without any occurrence of the
pattern unchanged. -/
theorem pyReplace_eq_self (s old nw : String) (h : ¬ old.data <:+: s.data) :
    pyReplace s old nw = s := by
  have hne : old.data.isEmpty = false := by
    cases he : old.data
    · exact absurd (by simp [he] : old.data <:+: s.data) h
    · rfl
  simp only [pyReplace, hne, Bool.false_eq_true, if_false]
  rw [replaceGo_eq_self old.data nw.data s.data.length s.data h]

/-- A string obtained by appending `sfx` ends with `sfx`. -/
theorem pyEndsWith_append (s sfx : String) : pyEndsWith (s ++ sfx) sfx = true := by
  unfold pyEndsWith
  rw [String.data_append]
  exact List.isSuffixOf_iff_suffix.mpr (List.suffix_append s.data sfx.data)

/-- When the configured suffix is non-empty, every `modify_url` output
ends with it. -/
theorem modify_url_endsWith (cfg : PyConfig) (u : String)
    (h : cfg.suffix.getD "" ≠ "") :
    pyEndsWith (modify_url cfg u) (cfg.suffix.getD "") = true := by
  cases hc : pyEndsWith (replaceStep cfg u) (cfg.suffix.getD "") <;>
    simp [modify_url, h, hc, pyEndsWith_append]

/-- The replacement step is the identity when replacement is disabled or
the pattern does not occur in the input. -/
theorem replaceStep_eq_self (cfg : PyConfig) (v : String)
    (h : cfg.enable_domain_replacement.getD false = true →
      ¬ ((cfg.replace_domain_old.getD "").data <:+: v.data)) :
    replaceStep cfg v = v := by
  unfold replaceStep
  cases he : cfg.enable_domain_replacement.getD false
  · simp
  · simp only [if_true]
    exact pyReplace_eq_self v _ _ (h he)

/-- A string fixed by the replacement step and already ending in the
configured suffix (when non-empty) is a fixed point of `modify_url`. -/
theorem modify_url_fixed (cfg : PyConfig) (v : String)
    (h1 : replaceStep cfg v = v)
    (h2 : cfg.suffix.getD "" ≠ "" → pyEndsWith v (cfg.suffix.getD "") = true) :
    modify_url cfg v = v := by
  by_cases hs : cfg.suffix.getD "" = ""
  · simp [modify_url, h1, hs]
  · simp [modify_url, h1, hs, h2 hs]

/-- C1: the claim says `isAcceptable` returns `false` for a candidate URL
whose scheme is not allowed (e.g. `"ftp://example.com"` under the default
configuration).  The code instead raises: `is_valid_and_ready_url`
reaches `check_domain_conditions`, whose protocol check at klipplink.py
line 207 reads the undefined name `result`, so the call raises a
`NameError` before comparing any scheme.  This theorem evaluates the
embedded code at the claim's own input. -/
theorem c1_ftp_input_raises_name_error :
    is_valid_and_ready_url defaultPyConfig "ftp://example.com"
      = Except.error "NameError: result" := by decide

/-- C2: the claim says a wrapped operation failing on every attempt is
executed exactly `max_retries` times and the last error is then raised.
In the source, `random` is never imported, and every call site leaves
`jitter = True`, so the first failed non-final attempt raises
`NameError: name 'random' is not defined` while computing the jittered
delay: the operation runs exactly once (first conjunct, the code as
written).  With the import present (`randomDefined = true`) the wrapper
behaves as the claim states: three attempts `[0, 1, 2]`, then the last
error `102` (second conjunct, the intended code). -/
theorem c2_retry_first_failure_raises_name_error :
    retry_with_backoff (fun n => (Except.error (100 + n) : Except Nat Nat)) 3 true false
      = (Except.error (RetryErr.nameErr "random"), [0])
    ∧ retry_with_backoff (fun n => (Except.error (100 + n) : Except Nat Nat)) 3 true true
      = (Except.error (RetryErr.opErr 102), [0, 1, 2]) := by decide

/-- C3 counterexample: the claim says no event is emitted for the very
first successful read after startup.  The baseline starts as Python
`None`, and `current_content != None` is true for every string, so the
very first successful read (here `"hello"`) emits an event. -/
theorem c3_first_read_emits :
    (monitorRun none [Except.ok "hello"]).2 = ["hello"] := by decide

/-- C3 as amended: no change event is emitted when a clipboard read
returns content identical to the previous sample (an immediately repeated
identical read adds nothing to the run), but the very first successful
read after startup does emit an event carrying its content, because the
initial `None` baseline differs from every string. -/
theorem c3_monitor_dedup_and_first_read :
    (∀ (last : Option String) (c : String) (rs : List (Except String String)),
      monitorRun last (Except.ok c :: Except.ok c :: rs)
        = monitorRun last (Except.ok c :: rs))
    ∧ (∀ (c : String) (rs : List (Except String String)),
      monitorRun none (Except.ok c :: rs)
        = ((monitorRun (some c) rs).1, c :: (monitorRun (some c) rs).2)) := by
  constructor
  · intro last c rs
    by_cases h : some c = last <;> simp [monitorRun, monitorStep, h]
  · intro c rs
    simp [monitorRun, monitorStep]

/-- C4 counterexample: the claim says `transform` is idempotent for every
URL and configuration.  Under `clashConfig` (replace `"s"` by `"t"`,
suffix `"s"`), input `"a"` transforms to `"as"`, but transforming again
rewrites the appended suffix (`"at"`) and appends once more (`"ats"`). -/
theorem c4_transform_not_idempotent :
    modify_url clashConfig (modify_url clashConfig "a") ≠ modify_url clashConfig "a" := by
  decide

/-- C4 as amended: `transform` is idempotent on `(u, cfg)` provided that,
when domain replacement is enabled, `replaceDomain.old` does not occur as
a substring of `transform(u, cfg)` — replacement then leaves the output
unchanged and the suffix, already present, is not appended again.
Without that proviso idempotence fails. -/
theorem c4_transform_idempotent_when_old_absent (cfg : PyConfig) (u : String)
    (h : cfg.enable_domain_replacement.getD false = true →
      ¬ ((cfg.replace_domain_old.getD "").data <:+: (modify_url cfg u).data)) :
    modify_url cfg (modify_url cfg u) = modify_url cfg u :=
  modify_url_fixed cfg (modify_url cfg u)
    (replaceStep_eq_self cfg (modify_url cfg u) h)
    (fun hs => modify_url_endsWith cfg u hs)

/-- C4 witness: the amended idempotence applied to the scenario
configuration and input, where `"old.com"` no longer occurs in the
transformed URL. -/
theorem c4_idempotent_witness :
    modify_url scenarioConfig (modify_url scenarioConfig "https://old.com/page")
      = modify_url scenarioConfig "https://old.com/page" :=
  c4_transform_idempotent_when_old_absent scenarioConfig "https://old.com/page" (by decide)

/-- C6 counterexample: the claim says percent-decoding is idempotent.
Decoding is a single pass: `"%2525"` decodes to `"%25"`, which decodes
again to `"%"`, so decoding an already-decoded string is not a no-op. -/
theorem c6_unquote_not_idempotent :
    pyUnquote (pyUnquote "%2525") ≠ pyUnquote "%2525" := by decide

/-- Decoding a string that contains no decodable percent escape is a
no-op. -/
theorem unquoteGo_eq_self (s : List Char) (h : hasEscape s = false) :
    unquoteGo s = s := by
  induction s using unquoteGo.induct with
  | case1 => rfl
  | case2 a b rest hh ih => simp_all [hasEscape]
  | case3 a b rest hh ih => simp_all [unquoteGo, hasEscape]
  | case4 c rest ih => simp_all [unquoteGo, hasEscape]

/-- C6 as amended: percent-decoding is a single left-to-right pass; it is
idempotent on exactly those strings whose decoded form contains no
further decodable escape (`'%'` followed by two hex digits).  On inputs
with doubly-encoded escapes a second decode strictly rewrites again. -/
theorem c6_unquote_idempotent_when_no_escape (s : String)
    (h : hasEscape (pyUnquote s).data = false) :
    pyUnquote (pyUnquote s) = pyUnquote s := by
  show (⟨unquoteGo (pyUnquote s).data⟩ : String) = pyUnquote s
  rw [unquoteGo_eq_self (pyUnquote s).data h]

/-- C6 witness: `"a%20b"` decodes to `"a b"`, which contains no escape,
so a second decode is a no-op. -/
theorem c6_unquote_idempotent_witness :
    hasEscape (pyUnquote "a%20b").data = false
    ∧ pyUnquote (pyUnquote "a%20b") = pyUnquote "a%20b" :=
  ⟨by decide, c6_unquote_idempotent_when_no_escape "a%20b" (by decide)⟩

/-- C7: under `{enableDomainReplacement: true, replaceDomain:
{old: "old.com", new: "new.com"}, suffix: "/suffix"}`, the input
`"https://old.com/page"` transforms to `"https://new.com/page/suffix"`
(first conjunct), and for every configuration and URL the suffix step
appends nothing when the (possibly replaced) URL already ends with the
configured suffix (second conjunct). -/
theorem c7_transform_scenario :
    modify_url scenarioConfig "https://old.com/page" = "https://new.com/page/suffix"
    ∧ ∀ (cfg : PyConfig) (u : String),
      pyEndsWith (replaceStep cfg u) (cfg.suffix.getD "") = true →
      modify_url cfg u = replaceStep cfg u := by
  constructor
  · decide
  · intro cfg u h
    simp [modify_url, h]

/-- C7 witness: the suffix-guard conjunct applied to a URL already ending
in `"/suffix"`, which the replacement step leaves unchanged: nothing is
appended. -/
theorem c7_transform_witness :
    modify_url scenarioConfig "https://a/suffix" = replaceStep scenarioConfig "https://a/suffix" :=
  (c7_transform_scenario).2 scenarioConfig "https://a/suffix" (by decide)

/-- C8: a condition type other than `contains`/`startswith`/`endswith`
(including an absent key) rejects every domain, and each of the three
recognised types decides the outcome by exactly the case-sensitive
substring, prefix, or suffix test of the condition value against the
domain label. -/
theorem c8_condition_dispatch (ct : Option String) (cv d : String) :
    (ct ≠ some "contains" → ct ≠ some "startswith" → ct ≠ some "endswith" →
      conditionTest ct cv d = false)
    ∧ (conditionTest (some "contains") cv d = true ↔ cv.data <:+: d.data)
    ∧ (conditionTest (some "startswith") cv d = true ↔ cv.data <+: d.data)
    ∧ (conditionTest (some "endswith") cv d = true ↔ cv.data <:+ d.data) := by
  refine ⟨?_, ?_, ?_, ?_⟩
  · intro h1 h2 h3
    unfold conditionTest
    split <;> simp_all
  · simp [conditionTest]
  · simp [conditionTest, List.isPrefixOf_iff_prefix]
  · simp [conditionTest, List.isSuffixOf_iff_suffix]

/-- C8 witness: an unrecognised condition type (`"regex"`) rejects a
domain that would pass every recognised test. -/
theorem c8_condition_witness :
    conditionTest (some "regex") "example" "example" = false :=
  (c8_condition_dispatch (some "regex") "example" "example").1
    (by decide) (by decide) (by decide)

/-- C9 counterexample: the claim says the allowed-protocol set used by
validation is always non-empty.  The fallback applies only when the key
is absent: a configuration that explicitly supplies the empty list is
used as-is, giving an empty set. -/
theorem c9_empty_allowed_protocols :
    allowed_protocols_of emptyProtocolsConfig = [] := by decide

/-- C9 as amended: whenever the configuration omits `allowed_protocols`,
validation falls back to `["http", "https"]`, which is non-empty; a
configuration explicitly supplying a list (possibly empty) is used
as-is. -/
theorem c9_allowed_protocols_fallback (cfg : PyConfig)
    (h : cfg.allowed_protocols = none) :
    allowed_protocols_of cfg = ["http", "https"] ∧ allowed_protocols_of cfg ≠ [] := by
  unfold allowed_protocols_of
  rw [h]
  exact ⟨rfl, by decide⟩

/-- C9 witness: the fallback applied to a configuration with every key
absent. -/
theorem c9_fallback_witness :
    allowed_protocols_of bareConfig = ["http", "https"] ∧ allowed_protocols_of bareConfig ≠ [] :=
  c9_allowed_protocols_fallback bareConfig rfl

/-- C10: for every settings-window state, the configuration object written
by `save_configuration` has exactly the keys `hotkey`,
`double_press_delay`, `condition_type`, `condition_value`,
`enable_domain_replacement`, `replace_domain`, `suffix`, in that order;
in particular `allowed_protocols` is absent, although it is present in
the `default_config` snapshot written at first startup. -/
theorem c10_saved_config_drops_allowed_protocols (s : SettingsState) :
    (save_configuration s).map Prod.fst
      = ["hotkey", "double_press_delay", "condition_type", "condition_value",
         "enable_domain_replacement", "replace_domain", "suffix"]
    ∧ "allowed_protocols" ∉ (save_configuration s).map Prod.fst
    ∧ "allowed_protocols" ∈ default_config.map Prod.fst := by
  refine ⟨rfl, ?_, by decide⟩
  show "allowed_protocols" ∉ ["hotkey", "double_press_delay", "condition_type",
    "condition_value", "enable_domain_replacement", "replace_domain", "suffix"]
  decide
